import Mathlib

/-!
Shallow embedding of the kubex command-line tool (Go sources: the
`k8sexec` package, the `cmd` package and the repository `main`).  Pure
functions of the Go code are translated into executable Lean functions;
the cluster (pods, deployments, stateful sets) and the remote-exec
transport are modelled as explicit values passed to the functions that,
in Go, obtain them through the Kubernetes client.
-/

namespace Kubex

/-! ### Line splitting and joining (Go `strings.Split` / `strings.Join` with separator `"\n"`) -/

/-- Model of Go `strings.Split(s, "\n")` on the character list of a string:
splitting an empty list yields `[[]]`, and each newline character starts a
new chunk. -/
def splitLinesList : List Char → List (List Char)
  | [] => [[]]
  | c :: cs =>
    if c = '\n' then [] :: splitLinesList cs
    else
      match splitLinesList cs with
      | [] => [[c]]
      | l :: ls => (c :: l) :: ls

/-- Model of Go `strings.Join(ls, "\n")` on character lists. -/
def joinLinesList : List (List Char) → List Char
  | [] => []
  | l :: ls =>
    match ls with
    | [] => l
    | _ :: _ => l ++ '\n' :: joinLinesList ls

/-- Go `strings.Split(s, "\n")`: the list of lines of `s`. -/
def goSplitNewline (s : String) : List String :=
  (splitLinesList s.data).map String.mk

/-- Go `strings.Join(ls, "\n")`. -/
def goJoinNewline : List String → String
  | [] => ""
  | s :: ss =>
    match ss with
    | [] => s
    | _ :: _ => s ++ "\n" ++ goJoinNewline ss

theorem splitLinesList_ne_nil (cs : List Char) : splitLinesList cs ≠ [] := by
  cases cs with
  | nil => simp [splitLinesList]
  | cons c cs =>
    simp only [splitLinesList]
    by_cases h : c = '\n'
    · simp [h]
    · simp only [h, if_false]
      cases splitLinesList cs <;> simp

theorem joinLinesList_splitLinesList (cs : List Char) :
    joinLinesList (splitLinesList cs) = cs := by
  induction cs with
  | nil => rfl
  | cons c cs ih =>
    by_cases h : c = '\n'
    · subst h
      rw [splitLinesList, if_pos rfl]
      obtain ⟨l, ls, hl⟩ : ∃ l ls, splitLinesList cs = l :: ls := by
        cases hsp : splitLinesList cs with
        | nil => exact absurd hsp (splitLinesList_ne_nil cs)
        | cons l ls => exact ⟨l, ls, rfl⟩
      rw [hl]
      show [] ++ '\n' :: joinLinesList (l :: ls) = '\n' :: cs
      rw [← hl, ih]
      rfl
    · rw [splitLinesList, if_neg h]
      cases hsp : splitLinesList cs with
      | nil => exact absurd hsp (splitLinesList_ne_nil cs)
      | cons l ls =>
        rw [hsp] at ih
        cases ls with
        | nil =>
          show joinLinesList [c :: l] = c :: cs
          simpa [joinLinesList] using congrArg (c :: ·) ih
        | cons l' ls' =>
          show (c :: l) ++ '\n' :: joinLinesList (l' :: ls') = c :: cs
          rw [List.cons_append]
          exact congrArg (c :: ·) ih

theorem goJoinNewline_map_mk (ls : List (List Char)) :
    goJoinNewline (ls.map String.mk) = String.mk (joinLinesList ls) := by
  induction ls with
  | nil => rfl
  | cons l ls ih =>
    cases ls with
    | nil => rfl
    | cons l' ls' =>
      show String.mk l ++ "\n" ++ goJoinNewline ((l' :: ls').map String.mk) =
        String.mk (l ++ '\n' :: joinLinesList (l' :: ls'))
      rw [ih]
      apply congrArg String.mk
      simp

/-- Joining the lines of a string with newlines returns the string: the
round-trip property of the line-split representation. -/
theorem goJoinNewline_goSplitNewline (s : String) :
    goJoinNewline (goSplitNewline s) = s := by
  rw [goSplitNewline, goJoinNewline_map_mk, joinLinesList_splitLinesList]

/-! ### Errors and the remote transport -/

/-- Model of a Go `error` value as seen by this program: `errors.As` with
target `exec.CodeExitError` succeeds exactly on the `codeExit` constructor
(which carries the remote exit code), and every other error is `other`.
The string is the text produced by the `Error()` method. -/
inductive GoError where
  | codeExit (code : Int) (msg : String)
  | other (msg : String)
deriving DecidableEq, Repr

/-- Text of the error, Go `err.Error()`. -/
def GoError.message : GoError → String
  | .codeExit _ msg => msg
  | .other msg => msg

/-- Abstract outcome of one remote exec attempt, standing in for what the
Kubernetes transport does: either `remotecommand.NewSPDYExecutor` fails
(`setupFailure`, nothing is streamed, the output sinks stay empty), or the
stream runs, fills the stdout/stderr sinks with the given texts and ends
with `StreamWithContext` returning the given optional error. -/
inductive RemoteOutcome where
  | setupFailure (e : GoError)
  | streamed (stdoutText stderrText : String) (streamErr : Option GoError)
deriving DecidableEq, Repr

/-- Result of `k8sexec.exec`: the returned `(int, error)` pair together
with the final contents of the stdout and stderr sinks. -/
structure ExecResult where
  retCode : Int
  err : Option GoError
  stdoutText : String
  stderrText : String
deriving DecidableEq, Repr

/-- Translation of `k8sexec.exec` (k8sexec.go lines 217-256).  On executor
construction failure it returns `-1` with that error and empty sinks; after
streaming, a `CodeExitError` is unwrapped and its code returned, any other
stream error yields `-1`, and a clean stream yields `0`.  The pod name,
container name and command are carried for fidelity of the call shape; the
returned values are determined by the transport outcome, as in the code. -/
def exec (_podName _containerName : String) (_cmd : List String)
    (outcome : RemoteOutcome) : ExecResult :=
  match outcome with
  | .setupFailure e => ⟨-1, some e, "", ""⟩
  | .streamed out errTxt streamErr =>
    match streamErr with
    | none => ⟨0, none, out, errTxt⟩
    | some e =>
      match e with
      | .codeExit code msg => ⟨code, some (.codeExit code msg), out, errTxt⟩
      | .other msg => ⟨-1, some (.other msg), out, errTxt⟩

/-! ### Exit code table and classification -/

/-- Translation of the `ExitCodes` map literal of k8sexec.go lines 37-64
(`none` models absence of the key).  Note the live table maps 130 to the
Control-C description; the signal-form entry for 130 is commented out in
the source. -/
def ExitCodes (code : Int) : Option String :=
  if code = -1 then some "Internal app error"
  else if code = 0 then some "Success"
  else if code = 1 then some "General error, unspecified error"
  else if code = 2 then some "Misuse of shell builtins"
  else if code = 126 then some "Command cannot execute"
  else if code = 127 then some "Command not found"
  else if code = 128 then some "Invalid argument to exit"
  else if code = 130 then some "Script terminated by Control-C (SIGINT)"
  else if code = 255 then some "Exit status out of range"
  else if code = 129 then some "Fatal error signal 1 (SIGHUP)"
  else if code = 131 then some "Fatal error signal 3 (SIGQUIT)"
  else if code = 132 then some "Fatal error signal 4 (SIGILL)"
  else if code = 133 then some "Fatal error signal 5 (SIGTRAP)"
  else if code = 134 then some "Fatal error signal 6 (SIGABRT/SIGIOT)"
  else if code = 135 then some "Fatal error signal 7 (SIGBUS)"
  else if code = 136 then some "Fatal error signal 8 (SIGFPE)"
  else if code = 137 then some "Fatal error signal 9 (SIGKILL)"
  else if code = 138 then some "Fatal error signal 10 (SIGUSR1)"
  else if code = 139 then some "Fatal error signal 11 (SIGSEGV)"
  else if code = 140 then some "Fatal error signal 12 (SIGUSR2)"
  else if code = 141 then some "Fatal error signal 13 (SIGPIPE)"
  else if code = 142 then some "Fatal error signal 14 (SIGALRM)"
  else if code = 143 then some "Fatal error signal 15 (SIGTERM)"
  else none

/-- Keys of the `ExitCodes` map, as listed in the source. -/
def exitCodesDomain : List Int :=
  [-1, 0, 1, 2, 126, 127, 128, 130, 255, 129, 131, 132, 133, 134, 135,
   136, 137, 138, 139, 140, 141, 142, 143]

/-- Translation of `k8sexec.GetExitCode` (k8sexec.go lines 66-75). -/
def GetExitCode (err : GoError) : Int × String :=
  match err with
  | .other _ => (-1, "")
  | .codeExit code _ =>
    match ExitCodes code with
    | none => (code, "Exit code " ++ toString code ++ " description not found!")
    | some d => (code, d)

/-- Translation of `k8sexec.GetExitCodeDescription` (k8sexec.go lines 77-82). -/
def GetExitCodeDescription (code : Int) : String :=
  match ExitCodes code with
  | none => ""
  | some d => d

/-! ### Execution statuses -/

/-- Translation of the `ExecutionStatus` struct of k8sexec.go. -/
structure ExecutionStatus where
  Pod : String
  Container : String
  RetCode : Int
  Error : List String
  Stdout : List String
  Stderr : List String
deriving DecidableEq, Repr

/-- Translation of `k8sexec.NewExecutionStatus` (k8sexec.go lines 258-260):
the error, stdout and stderr texts are stored split on newlines. -/
def NewExecutionStatus (pod container : String) (retCode : Int)
    (error stdout stderr : String) : ExecutionStatus :=
  ⟨pod, container, retCode, goSplitNewline error, goSplitNewline stdout,
    goSplitNewline stderr⟩

/-- Translation of `k8sexec.Exec` (k8sexec.go lines 262-271): run the
remote exec with fresh sinks and package the outcome as a status. -/
def Exec (podName containerName : String) (args : List String)
    (outcome : RemoteOutcome) : ExecutionStatus :=
  let r := exec podName containerName args outcome
  let errMessage := match r.err with
    | some e => e.message
    | none => ""
  NewExecutionStatus podName containerName r.retCode errMessage
    r.stdoutText r.stderrText

/-- Translation of `k8sexec.CheckUtilInContainer` (k8sexec.go lines
211-215): run the single-element command `[util]` and report the utility
as present unless the code is 127 or 126. -/
def CheckUtilInContainer (podName containerName util : String)
    (outcome : RemoteOutcome) : Bool :=
  let retCode := (exec podName containerName [util] outcome).retCode
  retCode != 127 && retCode != 126

/-! ### The cluster model -/

/-- One container of a pod spec (only the name matters to this program). -/
structure Container where
  name : String
deriving DecidableEq, Repr

/-- One pod as this program reads it: name, status phase, labels and the
containers of its spec, in declared order. -/
structure Pod where
  name : String
  phase : String
  labels : List (String × String)
  containers : List Container
deriving DecidableEq, Repr

/-- A workload controller (deployment or stateful set): only its
`Spec.Selector.MatchLabels` map is used by the program. -/
structure Workload where
  selector : List (String × String)
deriving DecidableEq, Repr

/-- The namespace contents this program lists from the cluster:
deployments, stateful sets and pods, each in the order the API returns
them. -/
structure Cluster where
  deployments : List Workload
  statefulSets : List Workload
  pods : List Pod
deriving DecidableEq, Repr

/-- A pod matches a match-labels selector when every key of the selector is
present among its labels with the selected value; the empty selector
(empty `LabelSelector` string) matches every pod. -/
def selectorMatches (sel : List (String × String)) (p : Pod) : Bool :=
  sel.all (fun kv => p.labels.lookup kv.1 == some kv.2)

/-- Translation of `K8SExec.GetPods` with a label-selector list option:
the namespace pod list filtered by the selector, in list order. -/
def GetPods (c : Cluster) (sel : List (String × String)) : List Pod :=
  c.pods.filter (selectorMatches sel)

/-- Translation of `K8SExec.GetPod`: fetch one pod of the namespace by
name (`none` models the not-found error of the API). -/
def GetPod (c : Cluster) (podName : String) : Option Pod :=
  c.pods.find? (fun p => p.name == podName)

/-- Translation of `K8SExec.GetUniquePods` (k8sexec.go lines 142-209).
For each deployment the first pod matching its selector is appended (and
every matching pod name is recorded in the `deploymentPods` map); the same
is then done for stateful sets; finally every pod of the namespace whose
name is in neither map is appended as standalone.  The first component is
`len(podsList.Items)`, the full pod count. -/
def GetUniquePods (c : Cluster) : Nat × List Pod :=
  let deploymentPods := c.deployments.flatMap
    (fun d => (GetPods c d.selector).map Pod.name)
  let depFirst := c.deployments.filterMap
    (fun d => (GetPods c d.selector).head?)
  let statefulSetsPods := c.statefulSets.flatMap
    (fun s => (GetPods c s.selector).map Pod.name)
  let ssFirst := c.statefulSets.filterMap
    (fun s => (GetPods c s.selector).head?)
  let standalone := c.pods.filter
    (fun p => !(deploymentPods.contains p.name) &&
      !(statefulSetsPods.contains p.name))
  (c.pods.length, depFirst ++ ssFirst ++ standalone)

/-! ### The cmd package: enumeration status and the run orchestrator -/

/-- Translation of the `EnumerationStatus` struct of the cmd package. -/
structure EnumerationStatus where
  Stdin : String
  Args : List String
  Namespace : String
  Statuses : List ExecutionStatus
deriving DecidableEq, Repr

/-- Translation of `cmd.NewEnumerationStatus` (cmd package): a stdin text
longer than 40 characters is summarized as its first 40 characters
followed by the literal suffix.  The statuses list starts empty. -/
def NewEnumerationStatus (pipeCommand : String) (command : List String)
    (ns : String) : EnumerationStatus :=
  let pc := if pipeCommand.length > 40
    then pipeCommand.take 40 ++ "... too long"
    else pipeCommand
  ⟨pc, command, ns, []⟩

/-- Fatal outcomes of `cmd.run`: the explicit no-command error return, and
the two `os.Exit(1)` aborts after fetching a named pod. -/
inductive RunFatal where
  | noCommands
  | podNotFound (podName : String)
  | podNotRunning (podName : String)
deriving DecidableEq, Repr

/-- Message printed for each fatal outcome of `cmd.run`. -/
def RunFatal.message : RunFatal → String
  | .noCommands => "No commands provided either by stdin or arguments."
  | .podNotFound podName => "pods " ++ podName ++ " not found"
  | .podNotRunning podName => "Pod " ++ podName ++ " is not in Running phase"

/-- Translation of `cmd.run` (cmd package), restricted to its effect on the
statuses gathered into the `EnumerationStatus`: which executions run, with
which arguments, and which fatal aborts occur.  `stdinText` is the fully
captured stdin buffer; `oracle` supplies the transport outcome of each
pod/container execution.  The three switch cases follow the source order:
pod without container (silently empty unless Running), pod with container
(fatal unless Running), neither (every container of every Running pod of
the full namespace pod list). -/
def run (c : Cluster) (podFlag containerFlag stdinText : String)
    (args : List String) (oracle : String → String → RemoteOutcome) :
    Except RunFatal (List ExecutionStatus) :=
  if stdinText = "" ∧ args = [] then .error .noCommands
  else
    let args := if stdinText ≠ "" ∧ args = [] then ["sh"] else args
    if podFlag ≠ "" ∧ containerFlag = "" then
      match GetPod c podFlag with
      | none => .error (.podNotFound podFlag)
      | some p =>
        if p.phase = "Running" then
          .ok (p.containers.map
            (fun ct => Exec p.name ct.name args (oracle p.name ct.name)))
        else .ok []
    else if podFlag ≠ "" ∧ containerFlag ≠ "" then
      match GetPod c podFlag with
      | none => .error (.podNotFound podFlag)
      | some p =>
        if p.phase ≠ "Running" then .error (.podNotRunning podFlag)
        else .ok [Exec podFlag containerFlag args
          (oracle podFlag containerFlag)]
    else if podFlag = "" ∧ containerFlag = "" then
      .ok ((GetPods c []).flatMap (fun p =>
        if p.phase = "Running" then
          p.containers.map
            (fun ct => Exec p.name ct.name args (oracle p.name ct.name))
        else []))
    else .ok []

/-- Modelled from the spec (section 4.4, neither-pod-nor-container mode):
resolve the unique target set with the resolver of section 4.1 and, for
every pod of that set whose phase is Running, execute against every
container in it.  This is the claimed behaviour, written for comparison
with `run`; the source `run` never calls `GetUniquePods`. -/
def runNeitherSpec (c : Cluster) (args : List String)
    (oracle : String → String → RemoteOutcome) : List ExecutionStatus :=
  (GetUniquePods c).2.flatMap (fun p =>
    if p.phase = "Running" then
      p.containers.map
        (fun ct => Exec p.name ct.name args (oracle p.name ct.name))
    else [])

/-! ### Concrete fixtures -/

/-- A Running pod with one container, matched by the `app=web` selector. -/
def podWeb1 : Pod := ⟨"web-1", "Running", [("app", "web")], [⟨"app"⟩]⟩

/-- A second Running replica of the same deployment. -/
def podWeb2 : Pod := ⟨"web-2", "Running", [("app", "web")], [⟨"app"⟩]⟩

/-- A namespace holding one deployment whose selector matches two Running
replica pods. -/
def clusterTwoReplicas : Cluster :=
  ⟨[⟨[("app", "web")]⟩], [], [podWeb1, podWeb2]⟩

/-- A transport oracle on which every execution streams cleanly with empty
output. -/
def quietOracle : String → String → RemoteOutcome :=
  fun _ _ => .streamed "" "" none

/-- The helper for the empty selector: an empty match-labels map matches
every pod, so listing with it returns the full namespace pod list. -/
theorem GetPods_nil_selector (c : Cluster) : GetPods c [] = c.pods := by
  simp [GetPods, selectorMatches]

/-! ### Claim theorems -/

/-- C3, counterexample: the live exit-code table does not give code 130 the
signal form for n = 2; it keeps the Control-C wording (the signal-form
entry for 130 is commented out in the source). -/
theorem describe_130_not_signal_form :
    GetExitCodeDescription 130 ≠ "Fatal error signal 2 (SIGINT)" := by
  decide

/-- C3, amended: the exit-code description function returns the fixed
table of the source for every code: 137 is SIGKILL, 143 is SIGTERM, 130 is
the Control-C description (not the 128+n signal form), and every code
outside the table keys yields the empty string. -/
theorem exitCodeDescription_table :
    GetExitCodeDescription 137 = "Fatal error signal 9 (SIGKILL)" ∧
    GetExitCodeDescription 130 = "Script terminated by Control-C (SIGINT)" ∧
    GetExitCodeDescription 143 = "Fatal error signal 15 (SIGTERM)" ∧
    GetExitCodeDescription 9999 = "" ∧
    ∀ code : Int, code ∉ exitCodesDomain → GetExitCodeDescription code = "" := by
  refine ⟨by decide, by decide, by decide, by decide, ?_⟩
  intro code h
  simp only [exitCodesDomain, List.mem_cons, List.not_mem_nil, or_false,
    not_or] at h
  obtain ⟨h1, h2, h3, h4, h5, h6, h7, h8, h9, h10, h11, h12, h13, h14, h15,
    h16, h17, h18, h19, h20, h21, h22, h23⟩ := h
  simp [GetExitCodeDescription, ExitCodes, h1, h2, h3, h4, h5, h6, h7, h8,
    h9, h10, h11, h12, h13, h14, h15, h16, h17, h18, h19, h20, h21, h22, h23]

/-- C3, witness: 9999 is outside the table keys and yields the empty
description. -/
theorem exitCodeDescription_table_witness :
    (9999 : Int) ∉ exitCodesDomain ∧ GetExitCodeDescription 9999 = "" :=
  ⟨by decide, exitCodeDescription_table.2.2.2.2 9999 (by decide)⟩

/-- C4, counterexample: on a code-exit error whose code is absent from the
table, `GetExitCode` does not return `(-1, "")`; it returns the code with
a description-not-found message. -/
theorem getExitCode_unknown_code_cex :
    GetExitCode (.codeExit 9999 "command terminated with exit code 9999") ≠
      (-1, "") := by
  decide

/-- C4, amended: `GetExitCode` returns `(-1, "")` exactly when the error
is not a code-exit error; on a code-exit error it returns the carried code
together with its table description, or with the message
`Exit code <code> description not found!` when the code is absent from the
table. -/
theorem getExitCode_classification :
    (∀ msg, GetExitCode (.other msg) = (-1, "")) ∧
    (∀ code msg, ExitCodes code = none →
      GetExitCode (.codeExit code msg) =
        (code, "Exit code " ++ toString code ++ " description not found!")) ∧
    (∀ code msg d, ExitCodes code = some d →
      GetExitCode (.codeExit code msg) = (code, d)) := by
  refine ⟨fun msg => rfl, ?_, ?_⟩
  · intro code msg h
    simp [GetExitCode, h]
  · intro code msg d h
    simp [GetExitCode, h]

/-- C4, witness: a transport error yields `(-1, "")`, and the unlisted
code 9999 yields the code with the not-found message. -/
theorem getExitCode_classification_witness :
    GetExitCode (.other "dial tcp: connection refused") = (-1, "") ∧
    ExitCodes 9999 = none ∧
    GetExitCode (.codeExit 9999 "exit status 9999") =
      (9999, "Exit code " ++ toString (9999 : Int) ++
        " description not found!") :=
  ⟨getExitCode_classification.1 _, by decide,
    getExitCode_classification.2.1 9999 "exit status 9999" (by decide)⟩

/-- C5: the stdin summary stored by `cmd.NewEnumerationStatus` keeps a
text of at most 40 characters unchanged, and replaces a longer text by its
first 40 characters followed by the literal suffix. -/
theorem newEnumerationStatus_stdin_truncation (s : String)
    (command : List String) (ns : String) :
    (s.length ≤ 40 → (NewEnumerationStatus s command ns).Stdin = s) ∧
    (40 < s.length →
      (NewEnumerationStatus s command ns).Stdin =
        s.take 40 ++ "... too long") := by
  constructor
  · intro h
    simp [NewEnumerationStatus, Nat.not_lt.mpr h]
  · intro h
    simp [NewEnumerationStatus, h]

/-- C5, witness: a 2-character text is stored unchanged and a 44-character
text is truncated to its first 40 characters plus the suffix. -/
theorem newEnumerationStatus_stdin_truncation_witness :
    ("id".length ≤ 40 ∧
      (NewEnumerationStatus "id" ["id"] "default").Stdin = "id") ∧
    (40 < "cat /etc/passwd /etc/shadow /etc/hosts /tmp/x".length ∧
      (NewEnumerationStatus "cat /etc/passwd /etc/shadow /etc/hosts /tmp/x"
          [] "default").Stdin =
        "cat /etc/passwd /etc/shadow /etc/hosts /tmp/x".take 40 ++
          "... too long") :=
  ⟨⟨by decide, (newEnumerationStatus_stdin_truncation "id" ["id"]
      "default").1 (by decide)⟩,
    ⟨by decide, (newEnumerationStatus_stdin_truncation
      "cat /etc/passwd /etc/shadow /etc/hosts /tmp/x" [] "default").2
      (by decide)⟩⟩

/-- C6: with an empty captured stdin buffer and an empty argument vector,
`run` returns the fatal no-commands error, whatever the cluster holds
(its result does not depend on any cluster content, so nothing is
contacted), and so no execution statuses are produced. -/
theorem run_no_command_fatal (c : Cluster) (podFlag containerFlag : String)
    (oracle : String → String → RemoteOutcome) :
    run c podFlag containerFlag "" [] oracle = .error .noCommands := by
  rfl

/-- C7: on transport setup failure the executor returns `-1` with the
error and empty output sinks (and the packaged status carries `-1`, the
split error text and empty-line output fields); after a successful channel
establishment a code-carrying termination error is captured as its own
code, not as `-1`. -/
theorem exec_failure_and_exit_code_capture :
    (∀ (pn cn : String) (cmdArgs : List String) (e : GoError),
      exec pn cn cmdArgs (.setupFailure e) = ⟨-1, some e, "", ""⟩) ∧
    (∀ (pn cn : String) (args : List String) (e : GoError),
      (Exec pn cn args (.setupFailure e)).RetCode = -1 ∧
      (Exec pn cn args (.setupFailure e)).Error = goSplitNewline e.message ∧
      (Exec pn cn args (.setupFailure e)).Stdout = [""] ∧
      (Exec pn cn args (.setupFailure e)).Stderr = [""]) ∧
    (∀ (pn cn : String) (cmdArgs : List String) (out errTxt : String)
        (code : Int) (msg : String), code ≠ 0 →
      (exec pn cn cmdArgs
        (.streamed out errTxt (some (.codeExit code msg)))).retCode = code ∧
      (exec pn cn cmdArgs
        (.streamed out errTxt (some (.codeExit code msg)))).err =
          some (.codeExit code msg)) := by
  refine ⟨fun pn cn cmdArgs e => rfl, fun pn cn args e => ?_,
    fun pn cn cmdArgs out errTxt code msg _ => ⟨rfl, rfl⟩⟩
  cases e <;> exact ⟨rfl, rfl, rfl, rfl⟩

/-- C7, witness: a remote process ending with code 2 is captured as 2. -/
theorem exec_failure_and_exit_code_capture_witness :
    (2 : Int) ≠ 0 ∧
    (exec "web-1" "app" ["ls"]
      (.streamed "bin" ""
        (some (.codeExit 2 "command terminated with exit code 2")))).retCode
      = 2 :=
  ⟨by decide, (exec_failure_and_exit_code_capture.2.2 "web-1" "app" ["ls"]
    "bin" "" 2 "command terminated with exit code 2" (by decide)).1⟩

/-- C8: `NewExecutionStatus` stores each captured text as its sequence of
newline-split lines, the empty text yields the single empty line, and
joining the stored lines with newlines restores the original text. -/
theorem newExecutionStatus_line_split_roundtrip (pod cont : String)
    (code : Int) (errTxt out errOut : String) :
    (NewExecutionStatus pod cont code errTxt out errOut).Stdout =
      goSplitNewline out ∧
    (NewExecutionStatus pod cont code errTxt "" errOut).Stdout = [""] ∧
    goJoinNewline
      ((NewExecutionStatus pod cont code errTxt out errOut).Stdout) = out ∧
    goJoinNewline
      ((NewExecutionStatus pod cont code errTxt out errOut).Stderr) = errOut ∧
    goJoinNewline
      ((NewExecutionStatus pod cont code errTxt out errOut).Error) = errTxt :=
  ⟨rfl, rfl, goJoinNewline_goSplitNewline out,
    goJoinNewline_goSplitNewline errOut, goJoinNewline_goSplitNewline errTxt⟩

/-- C10: `CheckUtilInContainer` reports the utility present exactly when
running the single-element command `[util]` returns a code different from
127 and 126; in particular a transport setup failure (code `-1`) makes it
report the utility as present. -/
theorem checkUtilInContainer_iff (pn cn util : String) (o : RemoteOutcome) :
    (CheckUtilInContainer pn cn util o = true ↔
      (exec pn cn [util] o).retCode ≠ 127 ∧
      (exec pn cn [util] o).retCode ≠ 126) ∧
    (∀ e : GoError, CheckUtilInContainer pn cn util (.setupFailure e) = true) := by
  constructor
  · simp [CheckUtilInContainer, Bool.and_eq_true, bne_iff_ne]
  · intro e
    rfl

/-- C2, counterexample: on a namespace whose one deployment owns two
Running replicas, `run` in the neither-pod-nor-container mode produces one
status per container of every pod (two statuses), not the statuses of the
unique target set of the resolver (one status): `run` never calls
`GetUniquePods`. -/
theorem run_neither_mode_not_unique_cex :
    (match run clusterTwoReplicas "" "" "" ["ls"] quietOracle with
      | .ok l => l.length
      | .error _ => 0) = 2 ∧
    (runNeitherSpec clusterTwoReplicas ["ls"] quietOracle).length = 1 := by
  constructor
  · rfl
  · rfl

/-- C2, amended: with neither a pod nor a container specified (and a
non-empty argument vector), `run` lists every pod of the namespace — not
the unique target set — and executes the command against every container
of every pod whose phase is Running, in list order. -/
theorem run_neither_mode_lists_all_pods (c : Cluster) (stdinText : String)
    (args : List String) (oracle : String → String → RemoteOutcome)
    (hargs : args ≠ []) :
    run c "" "" stdinText args oracle =
      .ok (c.pods.flatMap (fun p =>
        if p.phase = "Running" then
          p.containers.map
            (fun ct => Exec p.name ct.name args (oracle p.name ct.name))
        else [])) := by
  simp [run, hargs, GetPods_nil_selector]

/-- C2, witness: on the two-replica namespace, `run` executes against the
single container of each of the two Running pods. -/
theorem run_neither_mode_lists_all_pods_witness :
    run clusterTwoReplicas "" "" "" ["ls"] quietOracle =
      .ok (clusterTwoReplicas.pods.flatMap (fun p =>
        if p.phase = "Running" then
          p.containers.map
            (fun ct => Exec p.name ct.name ["ls"] (quietOracle p.name ct.name))
        else [])) :=
  run_neither_mode_lists_all_pods clusterTwoReplicas "" ["ls"] quietOracle
    (by decide)

/-- A Pending pod, present for the named-pod selection modes. -/
def podPending : Pod := ⟨"dbg-1", "Pending", [], [⟨"probe"⟩]⟩

/-- A Running pod with two containers in declared order. -/
def podWebTwoContainers : Pod :=
  ⟨"web-3", "Running", [("app", "web")], [⟨"app"⟩, ⟨"sidecar"⟩]⟩

/-- A namespace holding the Pending pod and the two-container Running
pod. -/
def clusterNamed : Cluster := ⟨[], [], [podPending, podWebTwoContainers]⟩

/-- C9: with a pod name given and the fetched pod not Running, `run`
yields zero statuses and no error when no container is named, but aborts
fatally naming the pod when a container is also named; with the pod
Running and no container named, it executes against every container of
the pod spec in declared order. -/
theorem run_named_pod_modes (c : Cluster) (pn cn stdinText : String)
    (args : List String) (oracle : String → String → RemoteOutcome)
    (p : Pod) (hpn : pn ≠ "") (hargs : args ≠ [])
    (hp : GetPod c pn = some p) :
    (p.phase ≠ "Running" → run c pn "" stdinText args oracle = .ok []) ∧
    (cn ≠ "" → p.phase ≠ "Running" →
      run c pn cn stdinText args oracle = .error (.podNotRunning pn)) ∧
    (p.phase = "Running" → run c pn "" stdinText args oracle =
      .ok (p.containers.map
        (fun ct => Exec p.name ct.name args (oracle p.name ct.name)))) := by
  refine ⟨?_, ?_, ?_⟩
  · intro hph
    simp [run, hargs, hpn, hp, hph]
  · intro hcn hph
    simp [run, hargs, hpn, hcn, hp, hph]
  · intro hph
    simp [run, hargs, hpn, hp, hph]

/-- C9, witness: the Pending pod yields silently-empty results without a
container and a fatal error naming it with a container, and the Running
two-container pod yields one execution per container in order. -/
theorem run_named_pod_modes_witness :
    run clusterNamed "dbg-1" "" "" ["ls"] quietOracle = .ok [] ∧
    run clusterNamed "dbg-1" "probe" "" ["ls"] quietOracle =
      .error (.podNotRunning "dbg-1") ∧
    run clusterNamed "web-3" "" "" ["ls"] quietOracle =
      .ok (podWebTwoContainers.containers.map (fun ct =>
        Exec podWebTwoContainers.name ct.name ["ls"]
          (quietOracle podWebTwoContainers.name ct.name))) :=
  ⟨(run_named_pod_modes clusterNamed "dbg-1" "" "" ["ls"] quietOracle
      podPending (by decide) (by decide) (by decide)).1 (by decide),
    (run_named_pod_modes clusterNamed "dbg-1" "probe" "" ["ls"] quietOracle
      podPending (by decide) (by decide) (by decide)).2.1 (by decide)
      (by decide),
    (run_named_pod_modes clusterNamed "web-3" "" "" ["ls"] quietOracle
      podWebTwoContainers (by decide) (by decide) (by decide)).2.2
      (by decide)⟩

/-! ### Uniqueness of the resolved target set (C1) -/

/-- The helper: `filterMap` keeps pairwise relations that hold between all
values the function can produce from related inputs. -/
theorem pairwise_filterMap_of {α β : Type} {f : α → Option β}
    {R : β → β → Prop} {l : List α}
    (h : l.Pairwise (fun a b =>
      ∀ x, f a = some x → ∀ y, f b = some y → R x y)) :
    (l.filterMap f).Pairwise R := by
  induction l with
  | nil => simp
  | cons a l ih =>
    rw [List.filterMap_cons]
    cases h with
    | cons ha hl =>
      cases hfa : f a with
      | none => exact ih hl
      | some b =>
        refine List.Pairwise.cons ?_ (ih hl)
        intro y hy
        obtain ⟨a', ha', hfa'⟩ := List.mem_filterMap.mp hy
        exact ha a' ha' b hfa y hfa'

/-- The helper: when the matched pod sets of the workloads of `W` are
pairwise name-disjoint, the names of their representative (first-matched)
pods are pairwise distinct. -/
theorem rep_names_nodup (c : Cluster) (W : List Workload)
    (h : W.Pairwise (fun a b => ∀ p ∈ GetPods c a.selector,
      ∀ q ∈ GetPods c b.selector, p.name ≠ q.name)) :
    ((W.filterMap
      (fun w => (GetPods c w.selector).head?)).map Pod.name).Nodup := by
  have hpw : (W.filterMap (fun w => (GetPods c w.selector).head?)).Pairwise
      (fun p q => p.name ≠ q.name) := by
    apply pairwise_filterMap_of
    refine h.imp ?_
    intro a b hab x hx y hy
    exact hab x (List.mem_of_mem_head? hx) y (List.mem_of_mem_head? hy)
  exact List.Pairwise.map Pod.name (fun a b hab => hab) hpw

/-- The helper: the name of any representative pod of a workload of `W` is
recorded among the claimed names of `W`. -/
theorem rep_name_mem_claimed (c : Cluster) (W : List Workload) (x : String)
    (hx : x ∈ (W.filterMap
      (fun w => (GetPods c w.selector).head?)).map Pod.name) :
    x ∈ W.flatMap (fun w => (GetPods c w.selector).map Pod.name) := by
  obtain ⟨r, hr, rfl⟩ := List.mem_map.mp hx
  obtain ⟨w, hw, hhead⟩ := List.mem_filterMap.mp hr
  exact List.mem_flatMap.mpr
    ⟨w, hw, List.mem_map_of_mem Pod.name (List.mem_of_mem_head? hhead)⟩

/-- A Running pod matched by two deployments with the same selector. -/
def podDup : Pod := ⟨"dup-1", "Running", [("app", "dup")], [⟨"main"⟩]⟩

/-- A namespace with two deployments whose selectors overlap (here:
coincide), both matching the same single pod. -/
def clusterOverlap : Cluster :=
  ⟨[⟨[("app", "dup")]⟩, ⟨[("app", "dup")]⟩], [], [podDup]⟩

/-- C1, counterexample: with two deployments whose label selectors
overlap, the pod first-matched by both is appended once per deployment,
so it appears twice in the resolver output: the claimed at-most-once
invariant fails on overlapping selectors. -/
theorem getUniquePods_overlap_cex :
    ((GetUniquePods clusterOverlap).2.map Pod.name).count "dup-1" = 2 ∧
    ¬ ((GetUniquePods clusterOverlap).2.map Pod.name).Nodup := by
  exact ⟨by decide, by decide⟩

/-- C1, amended: when the namespace pod names are distinct and the matched
pod sets of the workload controllers (deployments and stateful sets
together) are pairwise name-disjoint — in particular when no two selectors
overlap — every pod appears at most once in the resolver output, which
lists deployment representatives, then stateful-set representatives, then
standalone pods. -/
theorem getUniquePods_nodup (c : Cluster)
    (hpods : (c.pods.map Pod.name).Nodup)
    (hsel : (c.deployments ++ c.statefulSets).Pairwise (fun a b =>
      ∀ p ∈ GetPods c a.selector, ∀ q ∈ GetPods c b.selector,
        p.name ≠ q.name)) :
    ((GetUniquePods c).2.map Pod.name).Nodup := by
  obtain ⟨hD, hS, hDS⟩ := List.pairwise_append.mp hsel
  simp only [GetUniquePods]
  rw [List.map_append, List.map_append, List.nodup_append, List.nodup_append]
  refine ⟨⟨rep_names_nodup c c.deployments hD,
    rep_names_nodup c c.statefulSets hS, ?_⟩, ?_, ?_⟩
  · intro x hxA hxB
    obtain ⟨r, hr, hrx⟩ := List.mem_map.mp hxA
    obtain ⟨r', hr', hrx'⟩ := List.mem_map.mp hxB
    obtain ⟨d, hd, hheadd⟩ := List.mem_filterMap.mp hr
    obtain ⟨s, hs, hheads⟩ := List.mem_filterMap.mp hr'
    exact hDS d hd s hs r (List.mem_of_mem_head? hheadd) r'
      (List.mem_of_mem_head? hheads) (hrx.trans hrx'.symm)
  · exact hpods.sublist ((List.filter_sublist c.pods).map Pod.name)
  · intro x hxAB hxC
    obtain ⟨p, hp, hpx⟩ := List.mem_map.mp hxC
    obtain ⟨hpmem, hfree⟩ := List.mem_filter.mp hp
    simp only [Bool.and_eq_true, Bool.not_eq_true] at hfree
    rcases List.mem_append.mp hxAB with hxA | hxB
    · have hclaim := rep_name_mem_claimed c c.deployments x hxA
      have hmem : p.name ∈ c.deployments.flatMap
          (fun w => (GetPods c w.selector).map Pod.name) := hpx ▸ hclaim
      have hcontains : (c.deployments.flatMap
          (fun w => (GetPods c w.selector).map Pod.name)).contains p.name
            = true := by
        simp only [List.elem_eq_mem, decide_eq_true_eq]
        exact hmem
      rw [hcontains] at hfree
      exact absurd hfree.1 (by decide)
    · have hclaim := rep_name_mem_claimed c c.statefulSets x hxB
      have hmem : p.name ∈ c.statefulSets.flatMap
          (fun w => (GetPods c w.selector).map Pod.name) := hpx ▸ hclaim
      have hcontains : (c.statefulSets.flatMap
          (fun w => (GetPods c w.selector).map Pod.name)).contains p.name
            = true := by
        simp only [List.elem_eq_mem, decide_eq_true_eq]
        exact hmem
      rw [hcontains] at hfree
      exact absurd hfree.2 (by decide)

/-- A Running pod owned by the only deployment. -/
def podAlpha : Pod := ⟨"alpha-1", "Running", [("app", "alpha")], [⟨"main"⟩]⟩

/-- A Running pod owned by the only stateful set. -/
def podBeta : Pod := ⟨"beta-1", "Running", [("app", "beta")], [⟨"main"⟩]⟩

/-- A standalone Running pod owned by no controller. -/
def podSolo : Pod := ⟨"solo-1", "Running", [], [⟨"main"⟩]⟩

/-- A namespace whose deployment and stateful set have disjoint selectors
plus one standalone pod. -/
def clusterDisjoint : Cluster :=
  ⟨[⟨[("app", "alpha")]⟩], [⟨[("app", "beta")]⟩],
    [podAlpha, podBeta, podSolo]⟩

/-- C1, witness: on a namespace with disjoint controller selectors and
distinct pod names the resolver output repeats no pod name. -/
theorem getUniquePods_nodup_witness :
    ((clusterDisjoint.pods.map Pod.name).Nodup ∧
      (clusterDisjoint.deployments ++
        clusterDisjoint.statefulSets).Pairwise (fun a b =>
          ∀ p ∈ GetPods clusterDisjoint a.selector,
            ∀ q ∈ GetPods clusterDisjoint b.selector, p.name ≠ q.name)) ∧
    ((GetUniquePods clusterDisjoint).2.map Pod.name).Nodup :=
  ⟨⟨by decide, by decide⟩,
    getUniquePods_nodup clusterDisjoint (by decide) (by decide)⟩

end Kubex
